import Mathlib

/-!
Shallow embedding of the finance-analysis templates of the repository:

* `income_statement_generator.py` — the income-statement pipeline
  (referred to in the specification as the StatementBuilder);
* `variance_analysis_template.py` — the budget-variance pipeline
  (the VarianceAnalyzer).

Modelling conventions.  Monetary amounts are signed integers (`ℤ`), as in
the sample data of both scripts.  The `Variance (%)` column is a float in
the source; floats are modelled by `FloatVal`, a rational number extended
with the IEEE special values `inf`, `-inf` and `nan` that pandas produces
on division by zero (pandas emits no exception there).  Rational
arithmetic models the float arithmetic of the source exactly on the
inputs of interest; the IEEE comparison semantics of the special values
(`nan` compares false, `inf` greater than every finite value) is encoded
explicitly.  String formatting (Python `ljust`, `rjust`, `f"{x:,.2f}"`,
`"-" * 40`, ...) is reproduced character for character on these integer
amounts.
-/

/-- One transaction row of the income-statement input table: columns
`Account`, `Sub-Account`, `Amount`, `Period`. -/
structure TransactionRow where
  account : String
  subAccount : String
  amount : ℤ
  period : String
deriving DecidableEq, Repr

/-- The sample data block of `income_statement_generator.py`. -/
def sampleRows : List TransactionRow :=
  [ ⟨"Revenue", "Product Sales", 500000, "2023-Q1"⟩,
    ⟨"Revenue", "Service Revenue", 120000, "2023-Q1"⟩,
    ⟨"COGS", "Material Cost", -200000, "2023-Q1"⟩,
    ⟨"COGS", "Labor Cost", -80000, "2023-Q1"⟩,
    ⟨"OpEx", "Marketing", -45000, "2023-Q1"⟩,
    ⟨"OpEx", "R&D", -60000, "2023-Q1"⟩,
    ⟨"OpEx", "G&A", -30000, "2023-Q1"⟩,
    ⟨"Tax", "Income Tax", -40000, "2023-Q1"⟩ ]

/-- The `structure` dictionary of the script: ordered mapping from line
item label to the list of Sub-Accounts it aggregates (empty for the
calculated subtotals). -/
def structureDef : List (String × List String) :=
  [ ("Revenue", ["Product Sales", "Service Revenue"]),
    ("Cost of Goods Sold", ["Material Cost", "Labor Cost"]),
    ("Gross Profit", []),
    ("Operating Expenses", ["Marketing", "R&D", "G&A"]),
    ("Operating Income", []),
    ("Taxes", ["Income Tax"]),
    ("Net Income", []) ]

/-- Dictionary access `structure[key]`. -/
def structLookup (key : String) : List String :=
  (((structureDef.find? (fun p => p.1 == key)).map (fun p => p.2))).getD []

/-- `get_total(df, sub_accounts)`: sum of `Amount` over the rows whose
`Sub-Account` is in `sub_accounts`. -/
def get_total (rows : List TransactionRow) (sub_accounts : List String) : ℤ :=
  ((rows.filter (fun r => sub_accounts.contains r.subAccount)).map
    (fun r => r.amount)).sum

/-- `revenue = get_total(df, structure['Revenue'])`. -/
def revenue (rows : List TransactionRow) : ℤ :=
  get_total rows (structLookup "Revenue")

/-- `cogs = get_total(df, structure['Cost of Goods Sold'])`. -/
def cogs (rows : List TransactionRow) : ℤ :=
  get_total rows (structLookup "Cost of Goods Sold")

/-- `gross_profit = revenue + cogs` (cogs is stored negative). -/
def gross_profit (rows : List TransactionRow) : ℤ :=
  revenue rows + cogs rows

/-- `opex = get_total(df, structure['Operating Expenses'])`. -/
def opex (rows : List TransactionRow) : ℤ :=
  get_total rows (structLookup "Operating Expenses")

/-- `operating_income = gross_profit + opex`. -/
def operating_income (rows : List TransactionRow) : ℤ :=
  gross_profit rows + opex rows

/-- `taxes = get_total(df, structure['Taxes'])`. -/
def taxes (rows : List TransactionRow) : ℤ :=
  get_total rows (structLookup "Taxes")

/-- `net_income = operating_income + taxes`. -/
def net_income (rows : List TransactionRow) : ℤ :=
  operating_income rows + taxes rows

/-- The `Type` column of the statement DataFrame: `Header`, `Detail`,
`Total` or `Grand Total`. -/
inductive LineKind where
  | Header
  | Detail
  | Total
  | GrandTotal
deriving DecidableEq, BEq, Repr

/-- One entry of `statement_data`: columns `Line Item`, `Amount`, `Type`. -/
structure StatementLine where
  lineItem : String
  amount : ℤ
  kind : LineKind
deriving DecidableEq, Repr

/-- The `statement_data` list built by the script (the two leading spaces
of the detail labels are those of the source literals). -/
def statement_data (rows : List TransactionRow) : List StatementLine :=
  [ ⟨"Revenue", revenue rows, LineKind.Header⟩,
    ⟨"  Product Sales", get_total rows ["Product Sales"], LineKind.Detail⟩,
    ⟨"  Service Revenue", get_total rows ["Service Revenue"], LineKind.Detail⟩,
    ⟨"Cost of Goods Sold", cogs rows, LineKind.Header⟩,
    ⟨"Gross Profit", gross_profit rows, LineKind.Total⟩,
    ⟨"Operating Expenses", opex rows, LineKind.Header⟩,
    ⟨"Operating Income", operating_income rows, LineKind.Total⟩,
    ⟨"Net Income", net_income rows, LineKind.GrandTotal⟩ ]

/-- Python `s.ljust(w)`: pad on the right with spaces up to width `w`
(strings already at least `w` long are returned unchanged). -/
def ljust (s : String) (w : Nat) : String :=
  s ++ String.mk (List.replicate (w - s.length) ' ')

/-- Python `s.rjust(w)`: pad on the left with spaces up to width `w`. -/
def rjust (s : String) (w : Nat) : String :=
  String.mk (List.replicate (w - s.length) ' ') ++ s

/-- Python `"-" * n` and friends: a run of `n` copies of one character. -/
def repChar (n : Nat) (c : Char) : String :=
  String.mk (List.replicate n c)

/-- Group a reversed digit list into blocks of three (the units block
first), as the `,` option of Python format does. -/
def group3 : List Char → List (List Char)
  | [] => []
  | a :: b :: c :: rest => [a, b, c] :: group3 rest
  | l => [l]

/-- Python `f"{n:,}"` on a natural number: decimal digits with a comma
every three digits from the right. -/
def commaGroup (n : Nat) : String :=
  String.mk
    (((((group3 (toString n).toList.reverse).reverse).map List.reverse).intersperse
      [',']).flatten)

/-- Python `f"${abs(x):,.2f}"` on an integer amount: dollar sign, the
comma-grouped magnitude and two zero decimals. -/
def moneyAbs (x : ℤ) : String :=
  "$" ++ commaGroup x.natAbs ++ ".00"

/-- The `amount_str` of the format loop: the magnitude rendered in
parentheses when the amount is negative and the line kind is not
`Total`, the plain magnitude otherwise. -/
def amount_str (l : StatementLine) : String :=
  if l.amount < 0 ∧ l.kind ≠ LineKind.Total then
    "(" ++ moneyAbs l.amount ++ ")"
  else
    moneyAbs l.amount

/-- The main printed line of a statement row:
`row['Line Item'].ljust(25) + " " + amount_str.rjust(15)`. -/
def lineText (l : StatementLine) : String :=
  ljust l.lineItem 25 ++ " " ++ rjust (amount_str l) 15

/-- The lines printed for one statement row: `Grand Total` rows are
followed by a rule of 40 equals signs, `Total` rows by a rule of 40
dashes, other rows stand alone. -/
def renderLine (l : StatementLine) : List String :=
  match l.kind with
  | LineKind.GrandTotal => [lineText l, repChar 40 '=']
  | LineKind.Total => [lineText l, repChar 40 '-']
  | _ => [lineText l]

/-- The full console output of the income-statement script: title,
40-dash rule, then the formatted statement rows. -/
def incomeStatementReport (rows : List TransactionRow) : List String :=
  "Income Statement (2023-Q1)" :: repChar 40 '-'
    :: (statement_data rows).flatMap renderLine

/-- One input row of `variance_analysis_template.py`: columns
`Department`, `Actual`, `Budget`. -/
structure VarianceInputRow where
  department : String
  actual : ℤ
  budget : ℤ
deriving DecidableEq, Repr

/-- The sample data block of the variance script. -/
def varianceData : List VarianceInputRow :=
  [ ⟨"Sales", 120000, 100000⟩,
    ⟨"Marketing", 45000, 50000⟩,
    ⟨"Engineering", 150000, 140000⟩,
    ⟨"HR", 20000, 20000⟩,
    ⟨"Finance", 25000, 22000⟩ ]

/-- A pandas float64 value as produced by the variance pipeline: a
rational, or one of the special values that division by zero yields. -/
inductive FloatVal where
  | finite : ℚ → FloatVal
  | inf
  | neginf
  | nan
deriving DecidableEq, Repr

/-- Pandas column division `a / b`: ordinary division for a nonzero
denominator; on a zero denominator pandas produces `inf`, `-inf` or
`nan` according to the sign of the numerator, raising no exception. -/
def fdiv (a b : ℚ) : FloatVal :=
  if b ≠ 0 then FloatVal.finite (a / b)
  else if 0 < a then FloatVal.inf
  else if a < 0 then FloatVal.neginf
  else FloatVal.nan

/-- Multiplication of a float value by a positive finite constant
(the `* 100` of the percent column). -/
def fscale (c : ℚ) : FloatVal → FloatVal
  | FloatVal.finite q => FloatVal.finite (q * c)
  | FloatVal.inf => FloatVal.inf
  | FloatVal.neginf => FloatVal.neginf
  | FloatVal.nan => FloatVal.nan

/-- IEEE comparison `x > c` against a finite threshold: `nan` compares
false, `inf` true, `-inf` false. -/
def fgt (x : FloatVal) (c : ℚ) : Bool :=
  match x with
  | FloatVal.finite q => decide (c < q)
  | FloatVal.inf => true
  | FloatVal.neginf => false
  | FloatVal.nan => false

/-- IEEE comparison `x < c` against a finite threshold. -/
def flt (x : FloatVal) (c : ℚ) : Bool :=
  match x with
  | FloatVal.finite q => decide (q < c)
  | FloatVal.inf => false
  | FloatVal.neginf => true
  | FloatVal.nan => false

/-- One output row of the variance pipeline: the three input columns plus
`Variance ($)`, `Variance (%)` and `Status` (the status is the literal
string the lambda of the script returns). -/
structure VarianceRow where
  department : String
  actual : ℤ
  budget : ℤ
  varianceAbsolute : ℤ
  variancePercent : FloatVal
  status : String
deriving DecidableEq, Repr

/-- The three derived-column assignments of the script applied to one
row: `Variance ($) = Actual - Budget`,
`Variance (%) = Variance ($) / Budget * 100`, and the status lambda
`'Red' if x > 10 else ('Green' if x < -10 else 'Yellow')`. -/
def analyzeRow (r : VarianceInputRow) : VarianceRow :=
  let varAbs : ℤ := r.actual - r.budget
  let varPct : FloatVal := fscale 100 (fdiv (varAbs : ℚ) (r.budget : ℚ))
  let status : String :=
    if fgt varPct 10 then "Red"
    else if flt varPct (-10) then "Green"
    else "Yellow"
  ⟨r.department, r.actual, r.budget, varAbs, varPct, status⟩

/-- The whole variance computation: the derived columns are computed
row by row, preserving the row order of the input frame. -/
def analyze (rows : List VarianceInputRow) : List VarianceRow :=
  rows.map analyzeRow

/-- Python `f"${n:,.0f}"` on an integer: dollar sign, then the signed
comma-grouped value. -/
def moneySigned (n : ℤ) : String :=
  "$" ++ (if n < 0 then "-" else "") ++ commaGroup n.natAbs

/-- Rounding to the nearest integer with ties to even, as Python float
formatting does. -/
def roundHalfEven (q : ℚ) : ℤ :=
  let f : ℤ := ⌊q⌋
  if q - f < 1 / 2 then f
  else if (1 : ℚ) / 2 < q - f then f + 1
  else if f % 2 = 0 then f else f + 1

/-- Python `f"{x:.1f}%"` on a float value: one rounded decimal place and
a percent sign; the special values print as `inf%`, `-inf%`, `nan%`. -/
def pctStr : FloatVal → String
  | FloatVal.finite q =>
    let m : ℤ := roundHalfEven (q * 10)
    (if m < 0 then "-" else "") ++ toString (m.natAbs / 10) ++ "."
      ++ toString (m.natAbs % 10) ++ "%"
  | FloatVal.inf => "inf%"
  | FloatVal.neginf => "-inf%"
  | FloatVal.nan => "nan%"

/-- The column-header line of the variance report. -/
def varianceHeader : String :=
  ljust "Department" 15 ++ " " ++ rjust "Actual" 10 ++ " "
    ++ rjust "Budget" 10 ++ " " ++ rjust "Var ($)" 10 ++ " "
    ++ rjust "Var (%)" 10 ++ " " ++ rjust "Status" 8

/-- One printed row of the variance report, mirroring the f-string of
the loop body. -/
def varianceRowLine (v : VarianceRow) : String :=
  ljust v.department 15 ++ " " ++ rjust (moneySigned v.actual) 10 ++ " "
    ++ rjust (moneySigned v.budget) 10 ++ " "
    ++ rjust (moneySigned v.varianceAbsolute) 10 ++ " "
    ++ rjust (pctStr v.variancePercent) 10 ++ " " ++ rjust v.status 8

/-- The full console output of the variance script: title, 60-equals
rule, column header, 60-dash rule, then one line per row. -/
def varianceReport (rows : List VarianceInputRow) : List String :=
  "Variance Analysis Report" :: repChar 60 '=' :: varianceHeader
    :: repChar 60 '-' :: (analyze rows).map varianceRowLine

/-- The percentage-variance formula as the specification states it:
`variancePercent = varianceAbsolute / budget * 100`, as an exact
rational (meaningful whenever the budget is nonzero). -/
def varPctQ (r : VarianceInputRow) : ℚ :=
  ((r.actual : ℚ) - (r.budget : ℚ)) / (r.budget : ℚ) * 100

/-- The sample rows with every `Account` and `Period` value replaced,
keeping `Sub-Account` and `Amount`: input for the observational
equivalence of the statement pipeline. -/
def sampleRowsRelabeled : List TransactionRow :=
  [ ⟨"Misc", "Product Sales", 500000, "2024-Q4"⟩,
    ⟨"Misc", "Service Revenue", 120000, "2024-Q4"⟩,
    ⟨"Misc", "Material Cost", -200000, "2024-Q4"⟩,
    ⟨"Misc", "Labor Cost", -80000, "2024-Q4"⟩,
    ⟨"Misc", "Marketing", -45000, "2024-Q4"⟩,
    ⟨"Misc", "R&D", -60000, "2024-Q4"⟩,
    ⟨"Misc", "G&A", -30000, "2024-Q4"⟩,
    ⟨"Misc", "Income Tax", -40000, "2024-Q4"⟩ ]

theorem contains_eq_decide_mem (subs : List String) (s : String) :
    subs.contains s = decide (s ∈ subs) := by
  simp [List.contains, List.elem_eq_mem]

theorem get_total_cons (r : TransactionRow) (rs : List TransactionRow)
    (subs : List String) :
    get_total (r :: rs) subs =
      (if subs.contains r.subAccount then r.amount else 0) + get_total rs subs := by
  simp only [get_total, List.filter_cons]
  rw [contains_eq_decide_mem]
  by_cases h : r.subAccount ∈ subs
  · simp [h]
  · simp [h]

theorem get_total_nil_subs (rows : List TransactionRow) :
    get_total rows [] = 0 := by
  have h : ∀ r : TransactionRow, ([] : List String).contains r.subAccount = false :=
    fun _ => rfl
  simp [get_total, h]

theorem get_total_pair (rows : List TransactionRow) (a b : String) (hab : a ≠ b) :
    get_total rows [a, b] = get_total rows [a] + get_total rows [b] := by
  induction rows with
  | nil => rfl
  | cons r rs ih =>
    rw [get_total_cons, get_total_cons, get_total_cons, ih,
      contains_eq_decide_mem, contains_eq_decide_mem, contains_eq_decide_mem]
    simp only [decide_eq_true_eq, List.mem_cons, List.mem_singleton,
      List.not_mem_nil, or_false]
    by_cases ha : r.subAccount = a
    · rw [ha, if_pos (Or.inl rfl), if_pos rfl, if_neg hab]
      omega
    · by_cases hb : r.subAccount = b
      · rw [hb, if_pos (Or.inr rfl), if_neg (Ne.symm hab), if_pos rfl]
        omega
      · rw [if_neg (fun hor => hor.elim ha hb), if_neg ha, if_neg hb]
        omega

/-- C1: for every sequence of transaction rows, `get_total` computes a
category total as the sum of `Amount` over the rows whose Sub-Account
lies in the category's set, an empty set yields 0, and the subtotals
satisfy Gross Profit = Revenue + COGS, Operating Income = Gross Profit
+ OpEx, and Net Income = Operating Income + Taxes. -/
theorem C1_category_totals_and_rollup (rows : List TransactionRow) :
    (∀ subs : List String, get_total rows subs =
      ((rows.filter (fun r => decide (r.subAccount ∈ subs))).map
        (fun r => r.amount)).sum) ∧
    get_total rows [] = 0 ∧
    gross_profit rows = revenue rows + cogs rows ∧
    operating_income rows = gross_profit rows + opex rows ∧
    net_income rows = operating_income rows + taxes rows := by
  refine ⟨fun subs => ?_, get_total_nil_subs rows, rfl, rfl, rfl⟩
  have hfun : (fun (r : TransactionRow) => subs.contains r.subAccount)
      = fun r => decide (r.subAccount ∈ subs) :=
    funext fun r => contains_eq_decide_mem subs r.subAccount
  rw [get_total, hfun]

theorem analyzeRow_pct_of_budget_ne_zero (r : VarianceInputRow)
    (h : r.budget ≠ 0) :
    (analyzeRow r).variancePercent = FloatVal.finite (varPctQ r) := by
  have hb : (r.budget : ℚ) ≠ 0 := Int.cast_ne_zero.mpr h
  simp only [analyzeRow, fdiv, fscale, hb, ne_eq, not_false_eq_true, if_true,
    if_pos, varPctQ]
  push_cast
  ring_nf

/-- C2: the claim asks that a zero budget yield a sentinel
variance-percentage with status Yellow; the code instead lets the
pandas division produce an infinity, which the threshold lambda then
classifies as Red (for a positive actual).  This theorem evaluates the
code at the failing input `actual = 120000, budget = 0` and records the
divergence; only a zero actual lands on `nan` and hence Yellow. -/
theorem C2_budget_zero_is_red_not_yellow :
    (analyzeRow ⟨"Sales", 120000, 0⟩).variancePercent = FloatVal.inf ∧
    (analyzeRow ⟨"Sales", 120000, 0⟩).status = "Red" ∧
    (analyzeRow ⟨"Sales", 120000, 0⟩).status ≠ "Yellow" ∧
    (analyzeRow ⟨"Sales", 0, 0⟩).variancePercent = FloatVal.nan ∧
    (analyzeRow ⟨"Sales", 0, 0⟩).status = "Yellow" := by
  refine ⟨rfl, rfl, ?_, rfl, rfl⟩
  decide

/-- C3: for a row with nonzero budget the status is Red when the
variance percentage exceeds 10, Green when it is below -10 and Yellow
otherwise; the boundary values 10 and -10 both classify as Yellow. -/
theorem C3_status_thresholds (r : VarianceInputRow) (h : r.budget ≠ 0) :
    (analyzeRow r).status =
      (if 10 < varPctQ r then "Red"
       else if varPctQ r < -10 then "Green" else "Yellow") ∧
    (varPctQ r = 10 → (analyzeRow r).status = "Yellow") ∧
    (varPctQ r = -10 → (analyzeRow r).status = "Yellow") := by
  have hpct := analyzeRow_pct_of_budget_ne_zero r h
  have hs : (analyzeRow r).status =
      (if 10 < varPctQ r then "Red"
       else if varPctQ r < -10 then "Green" else "Yellow") := by
    have hstat : (analyzeRow r).status =
        (if fgt (analyzeRow r).variancePercent 10 then "Red"
         else if flt (analyzeRow r).variancePercent (-10) then "Green"
         else "Yellow") := rfl
    rw [hstat, hpct]
    simp [fgt, flt]
  refine ⟨hs, fun h10 => ?_, fun h10 => ?_⟩
  · rw [hs, h10]
    norm_num
  · rw [hs, h10]
    norm_num

/-- Witness for C3 at the boundary row of the specification examples:
actual 45000 against budget 50000 gives exactly -10 percent, Yellow. -/
theorem C3_status_thresholds_witness :
    (⟨"Marketing", 45000, 50000⟩ : VarianceInputRow).budget ≠ 0 ∧
    (analyzeRow ⟨"Marketing", 45000, 50000⟩).status =
      (if 10 < varPctQ ⟨"Marketing", 45000, 50000⟩ then "Red"
       else if varPctQ ⟨"Marketing", 45000, 50000⟩ < -10 then "Green"
       else "Yellow") :=
  ⟨by decide, (C3_status_thresholds ⟨"Marketing", 45000, 50000⟩ (by decide)).1⟩

/-- C6: every output row carries `varianceAbsolute = actual - budget`;
for a nonzero budget the variance percentage is exactly
`(actual - budget) / budget * 100`; and the example row with actual
120000 against budget 100000 yields 20000, 20 percent and Red. -/
theorem C6_variance_formulas (r : VarianceInputRow) :
    (analyzeRow r).varianceAbsolute = r.actual - r.budget ∧
    (r.budget ≠ 0 →
      (analyzeRow r).variancePercent = FloatVal.finite (varPctQ r)) ∧
    (analyzeRow ⟨"Sales", 120000, 100000⟩).varianceAbsolute = 20000 ∧
    (analyzeRow ⟨"Sales", 120000, 100000⟩).variancePercent = FloatVal.finite 20 ∧
    (analyzeRow ⟨"Sales", 120000, 100000⟩).status = "Red" := by
  have hp : (analyzeRow ⟨"Sales", 120000, 100000⟩).variancePercent =
      FloatVal.finite 20 := by
    rw [analyzeRow_pct_of_budget_ne_zero ⟨"Sales", 120000, 100000⟩ (by decide)]
    norm_num [varPctQ]
  have hs : (analyzeRow (⟨"Sales", 120000, 100000⟩ : VarianceInputRow)).status =
      (if fgt (analyzeRow (⟨"Sales", 120000, 100000⟩ : VarianceInputRow)).variancePercent 10
        then "Red"
       else if flt (analyzeRow (⟨"Sales", 120000, 100000⟩ : VarianceInputRow)).variancePercent (-10)
        then "Green" else "Yellow") := rfl
  refine ⟨rfl, fun h => analyzeRow_pct_of_budget_ne_zero r h, by decide, hp, ?_⟩
  rw [hs, hp]
  simp only [fgt, flt]
  norm_num

/-- Witness for C6 at the example row, discharging the nonzero-budget
hypothesis there. -/
theorem C6_variance_formulas_witness :
    (⟨"Sales", 120000, 100000⟩ : VarianceInputRow).budget ≠ 0 ∧
    (analyzeRow ⟨"Sales", 120000, 100000⟩).variancePercent =
      FloatVal.finite (varPctQ ⟨"Sales", 120000, 100000⟩) :=
  ⟨by decide, (C6_variance_formulas ⟨"Sales", 120000, 100000⟩).2.1 (by decide)⟩

/-- C10: the variance pipeline only adds derived columns: department,
actual and budget pass through unchanged and the output keeps the
input row order (it is a row-by-row map). -/
theorem C10_input_columns_preserved (rows : List VarianceInputRow) :
    (analyze rows).map (fun v => v.department) = rows.map (fun r => r.department) ∧
    (analyze rows).map (fun v => v.actual) = rows.map (fun r => r.actual) ∧
    (analyze rows).map (fun v => v.budget) = rows.map (fun r => r.budget) ∧
    (analyze rows).length = rows.length := by
  refine ⟨?_, ?_, ?_, ?_⟩ <;>
    simp [analyze, analyzeRow, List.map_map, Function.comp]

/-- C4 (amended): the emitted statement lines have a fixed label/kind
sequence for every input — Revenue header, the two Revenue detail
lines, COGS header, Gross Profit (Total), OpEx header, Operating
Income (Total), and Net Income (Grand Total) last; no Taxes header
line is ever emitted. -/
theorem C4_fixed_line_order (rows : List TransactionRow) :
    (statement_data rows).map (fun l => (l.lineItem, l.kind)) =
      [ ("Revenue", LineKind.Header),
        ("  Product Sales", LineKind.Detail),
        ("  Service Revenue", LineKind.Detail),
        ("Cost of Goods Sold", LineKind.Header),
        ("Gross Profit", LineKind.Total),
        ("Operating Expenses", LineKind.Header),
        ("Operating Income", LineKind.Total),
        ("Net Income", LineKind.GrandTotal) ] := rfl

/-- C4 counterexample: the sample input contains a Tax row, yet the
emitted statement holds no line labelled `Taxes` — the claimed Taxes
header is absent even when Tax rows are present. -/
theorem C4_no_taxes_header_counterexample :
    sampleRows.any (fun r => r.account == "Tax") = true ∧
    (statement_data sampleRows).all (fun l => l.lineItem != "Taxes") = true := by
  constructor
  · decide
  · decide

/-- C5: a negative amount on a Header, Detail or Grand Total line is
rendered as a parenthesized magnitude, a negative Total line is not;
Total lines are followed by a rule of dashes and the Grand Total line
by a rule of equals signs, both 40 characters — the report's column
width. -/
theorem C5_negative_parens_and_rules (l : StatementLine) :
    (l.amount < 0 → l.kind ≠ LineKind.Total →
      amount_str l = "(" ++ moneyAbs l.amount ++ ")") ∧
    (l.amount < 0 → l.kind = LineKind.Total → amount_str l = moneyAbs l.amount) ∧
    (l.kind = LineKind.Total → renderLine l = [lineText l, repChar 40 '-']) ∧
    (l.kind = LineKind.GrandTotal → renderLine l = [lineText l, repChar 40 '=']) ∧
    (repChar 40 '-').length = 40 ∧ (repChar 40 '=').length = 40 := by
  obtain ⟨li, a, k⟩ := l
  refine ⟨fun hneg hk => ?_, fun hneg hk => ?_, fun hk => ?_, fun hk => ?_,
    by decide, by decide⟩
  · simp only [amount_str]
    rw [if_pos ⟨hneg, hk⟩]
  · cases hk
    simp [amount_str]
  · cases hk
    rfl
  · cases hk
    rfl

/-- Witness for C5 at a concrete negative Header line. -/
theorem C5_negative_parens_and_rules_witness :
    ((-280000 : ℤ) < 0 ∧ LineKind.Header ≠ LineKind.Total) ∧
    amount_str ⟨"Cost of Goods Sold", -280000, LineKind.Header⟩ =
      "(" ++ moneyAbs (-280000) ++ ")" :=
  ⟨⟨by decide, by decide⟩,
    (C5_negative_parens_and_rules
      ⟨"Cost of Goods Sold", -280000, LineKind.Header⟩).1 (by decide) (by decide)⟩

/-- C7 counterexample: on the sample input the COGS header (position 3)
carries total -280000, but the Detail lines following it sum to 0 —
headers other than Revenue get no detail breakdown, so the claim read
over every header fails. -/
theorem C7_details_under_cogs_counterexample :
    ((statement_data sampleRows).getD 3 ⟨"", 0, LineKind.Header⟩).kind
      = LineKind.Header ∧
    (((((statement_data sampleRows).drop 4).takeWhile
        (fun l => l.kind == LineKind.Detail)).map (fun l => l.amount)).sum : ℤ)
      ≠ ((statement_data sampleRows).getD 3 ⟨"", 0, LineKind.Header⟩).amount := by
  constructor
  · rfl
  · decide

/-- C7 (amended): the only Detail lines of the statement are the two
directly under the Revenue header, and their amounts sum exactly to
the Revenue header's total for every input; the later lines (from the
COGS header on) contain no Detail line. -/
theorem C7_revenue_details_sum (rows : List TransactionRow) :
    ((((statement_data rows).drop 1).takeWhile
        (fun l => l.kind == LineKind.Detail)).map (fun l => l.amount)).sum
      = ((statement_data rows).headD ⟨"", 0, LineKind.Header⟩).amount ∧
    ((statement_data rows).drop 3).all (fun l => l.kind != LineKind.Detail)
      = true := by
  constructor
  · have h1 : ((((statement_data rows).drop 1).takeWhile
        (fun l => l.kind == LineKind.Detail)).map (fun l => l.amount))
      = [get_total rows ["Product Sales"], get_total rows ["Service Revenue"]] := rfl
    have h2 : ((statement_data rows).headD ⟨"", 0, LineKind.Header⟩).amount
      = revenue rows := rfl
    have h3 : revenue rows = get_total rows ["Product Sales", "Service Revenue"] := rfl
    rw [h1, h2, h3,
      get_total_pair rows "Product Sales" "Service Revenue" (by decide)]
    simp
  · rfl

/-- C8: both pipelines are deterministic — two runs on identical inputs
produce byte-identical formatted reports. -/
theorem C8_rerun_byte_identical (s1 s2 : List TransactionRow)
    (v1 v2 : List VarianceInputRow) (hs : s1 = s2) (hv : v1 = v2) :
    incomeStatementReport s1 = incomeStatementReport s2 ∧
    varianceReport v1 = varianceReport v2 := by
  subst hs
  subst hv
  exact ⟨rfl, rfl⟩

/-- Witness for C8 at the sample inputs of both scripts. -/
theorem C8_rerun_byte_identical_witness :
    sampleRows = sampleRows ∧ varianceData = varianceData ∧
    incomeStatementReport sampleRows = incomeStatementReport sampleRows ∧
    varianceReport varianceData = varianceReport varianceData :=
  ⟨rfl, rfl,
    (C8_rerun_byte_identical sampleRows sampleRows varianceData varianceData
      rfl rfl).1,
    (C8_rerun_byte_identical sampleRows sampleRows varianceData varianceData
      rfl rfl).2⟩

theorem get_total_depends_only_on_proj (rows1 rows2 : List TransactionRow)
    (h : rows1.map (fun r => (r.subAccount, r.amount))
       = rows2.map (fun r => (r.subAccount, r.amount))) (subs : List String) :
    get_total rows1 subs = get_total rows2 subs := by
  induction rows1 generalizing rows2 with
  | nil =>
    cases rows2 with
    | nil => rfl
    | cons r2 rs2 => simp at h
  | cons r1 rs1 ih =>
    cases rows2 with
    | nil => simp at h
    | cons r2 rs2 =>
      simp only [List.map_cons, List.cons.injEq, Prod.mk.injEq] at h
      obtain ⟨⟨hsub, hamt⟩, htail⟩ := h
      rw [get_total_cons, get_total_cons, hsub, hamt, ih rs2 htail]

/-- C9: the statement aggregation reads only the Sub-Account and Amount
columns — two row sequences agreeing on those columns produce the same
statement lines, whatever their Account and Period values. -/
theorem C9_account_period_irrelevant (rows1 rows2 : List TransactionRow)
    (h : rows1.map (fun r => (r.subAccount, r.amount))
       = rows2.map (fun r => (r.subAccount, r.amount))) :
    statement_data rows1 = statement_data rows2 := by
  have key : ∀ subs, get_total rows1 subs = get_total rows2 subs :=
    fun subs => get_total_depends_only_on_proj rows1 rows2 h subs
  simp only [statement_data, revenue, cogs, gross_profit, opex,
    operating_income, taxes, net_income, key]

/-- Witness for C9: relabelling every Account and Period of the sample
rows leaves the statement unchanged. -/
theorem C9_account_period_irrelevant_witness :
    sampleRowsRelabeled.map (fun r => (r.subAccount, r.amount))
      = sampleRows.map (fun r => (r.subAccount, r.amount)) ∧
    statement_data sampleRowsRelabeled = statement_data sampleRows :=
  ⟨rfl, C9_account_period_irrelevant sampleRowsRelabeled sampleRows rfl⟩
